import Mathlib

/-
Shallow embedding of src/binance.js (npm-binance-api).

The JavaScript source is a small client for the Binance HTTP API.  External
collaborators (the got HTTP transport, the qs and crypto libraries, the wall
clock) are modelled by explicit Lean definitions or by explicit arguments
(the current time in milliseconds is passed as a Nat).

Request construction is modelled as a pure function returning either the
Request value handed to the transport or the JavaScript error thrown before
any network activity.  Response normalisation (the tail of rawRequest) is
modelled separately as a function on the parsed response body, and the
callback-or-promise completion of publicMethod as a function producing a
delivery record.
-/

namespace Binance

/-- A scalar JavaScript parameter value: a number or a string. -/
inductive JsValue : Type
  | num (n : Int)
  | str (s : String)
deriving DecidableEq

/-- JavaScript truthiness of a scalar value: the number 0 and the empty string are falsy. -/
def jsTruthy : JsValue → Bool
  | JsValue.num n => n != 0
  | JsValue.str s => s != ""

/-- Truthiness of a possibly absent object property: an absent property reads as undefined, which is falsy. -/
def jsTruthyOpt : Option JsValue → Bool
  | none => false
  | some v => jsTruthy v

/-- JavaScript ToString of a scalar value (integer numbers print as in JavaScript). -/
def jsValueToString : JsValue → String
  | JsValue.num n => toString n
  | JsValue.str s => s

/-- A JavaScript object used as a parameter map: an insertion-ordered association list. -/
abbrev ParamMap := List (String × JsValue)

/-- Property read on a JavaScript object (first binding of the key wins). -/
def lookupParam : ParamMap → String → Option JsValue
  | [], _ => none
  | (k2, v2) :: rest, k => if k2 = k then some v2 else lookupParam rest k

/-- Property write on a JavaScript object: update the existing binding in place, or append a new one. -/
def setParam : ParamMap → String → JsValue → ParamMap
  | [], k, v => [(k, v)]
  | (k2, v2) :: rest, k, v =>
    if k2 = k then (k, v) :: rest else (k2, v2) :: setParam rest k v

/-- Header map of an HTTP request, with the same object semantics as ParamMap. -/
abbrev HeaderMap := List (String × String)

/-- Header read. -/
def lookupHeader : HeaderMap → String → Option String
  | [], _ => none
  | (k2, v2) :: rest, k => if k2 = k then some v2 else lookupHeader rest k

/-- Header write. -/
def setHeader : HeaderMap → String → String → HeaderMap
  | [], k, v => [(k, v)]
  | (k2, v2) :: rest, k, v =>
    if k2 = k then (k, v) :: rest else (k2, v2) :: setHeader rest k v

/-- Models JavaScript String.prototype.startsWith on whole strings. -/
def strStartsWith (s pre : String) : Bool :=
  pre.toList.isPrefixOf s.toList

/-- Models the JavaScript call s.substr(1): the string from index 1 to the end. -/
def substrFrom1 (s : String) : String :=
  String.mk (s.toList.drop 1)

/-- Models the JavaScript call list.join(a comma and a space), as used on line 53. -/
def joinWithComma : List String → String
  | [] => ""
  | [x] => x
  | x :: y :: rest => x ++ ", " ++ joinWithComma (y :: rest)

/-- Joins encoded key-value pairs with ampersands, as qs.stringify does. -/
def joinAmp : List String → String
  | [] => ""
  | [x] => x
  | x :: y :: rest => x ++ "&" ++ joinAmp (y :: rest)

/-- UTF-8 encoding of a single character as a list of byte values. -/
def utf8BytesOfChar (c : Char) : List Nat :=
  let n := c.toNat
  if n < 128 then [n]
  else if n < 2048 then [192 + n / 64, 128 + n % 64]
  else if n < 65536 then [224 + n / 4096, 128 + (n / 64) % 64, 128 + n % 64]
  else [240 + n / 262144, 128 + (n / 4096) % 64, 128 + (n / 64) % 64, 128 + n % 64]

/-- UTF-8 encoding of a string as a list of byte values. -/
def utf8Bytes (s : String) : List Nat :=
  (s.toList.map utf8BytesOfChar).flatten

/-- Upper-case hexadecimal digit for a value below 16. -/
def hexDigitUpper (n : Nat) : Char :=
  if n < 10 then Char.ofNat (48 + n) else Char.ofNat (55 + n)

/-- Lower-case hexadecimal digit for a value below 16. -/
def hexDigitLower (n : Nat) : Char :=
  if n < 10 then Char.ofNat (48 + n) else Char.ofNat (87 + n)

/-- Two upper-case hexadecimal digits of a byte value. -/
def byteToHexUpper (b : Nat) : String :=
  String.mk [hexDigitUpper (b / 16), hexDigitUpper (b % 16)]

/-- Characters left unescaped by the JavaScript encodeURIComponent builtin. -/
def isURIUnescaped (c : Char) : Bool :=
  c.isAlphanum || c == '-' || c == '_' || c == '.' || c == '!' || c == '~' ||
    c == '*' || c == Char.ofNat 39 || c == '(' || c == ')'

/-- Models the JavaScript encodeURIComponent builtin on a string argument. -/
def encodeURIComponentStr (s : String) : String :=
  String.join (s.toList.map (fun c =>
    if isURIUnescaped c then String.singleton c
    else String.join ((utf8BytesOfChar c).map (fun b => "%" ++ byteToHexUpper b))))

/-- JavaScript ToString of a plain object, as triggered when an object is passed
where a string is expected (encodeURIComponent coerces its argument to a string). -/
def objectToPrimitiveString (_ps : ParamMap) : String :=
  "[object Object]"

/-- Models the JavaScript expression encodeURIComponent(data) where data is a plain
object: the object is coerced to its primitive string and then percent-encoded. -/
def encodeURIComponentObj (ps : ParamMap) : String :=
  encodeURIComponentStr (objectToPrimitiveString ps)

/-- Models qs.stringify on a flat object of scalar values (line 38). -/
def qsStringify (ps : ParamMap) : String :=
  joinAmp (ps.map (fun p =>
    encodeURIComponentStr p.1 ++ "=" ++ encodeURIComponentStr (jsValueToString p.2)))

/-- Reduction of a natural number to a 32-bit word. -/
def w32 (n : Nat) : Nat := n % 4294967296

/-- Right rotation of a 32-bit word by b bits. -/
def rotr32 (b n : Nat) : Nat := w32 ((n >>> b) ||| (n <<< (32 - b)))

/-- SHA-256 choice function. -/
def shaCh (e f g : Nat) : Nat := (e &&& f) ^^^ ((e ^^^ 4294967295) &&& g)

/-- SHA-256 majority function. -/
def shaMaj (a b c : Nat) : Nat := (a &&& b) ^^^ (a &&& c) ^^^ (b &&& c)

/-- SHA-256 big sigma 0. -/
def bigSigma0 (a : Nat) : Nat := rotr32 2 a ^^^ rotr32 13 a ^^^ rotr32 22 a

/-- SHA-256 big sigma 1. -/
def bigSigma1 (e : Nat) : Nat := rotr32 6 e ^^^ rotr32 11 e ^^^ rotr32 25 e

/-- SHA-256 small sigma 0. -/
def smallSigma0 (w : Nat) : Nat := rotr32 7 w ^^^ rotr32 18 w ^^^ (w >>> 3)

/-- SHA-256 small sigma 1. -/
def smallSigma1 (w : Nat) : Nat := rotr32 17 w ^^^ rotr32 19 w ^^^ (w >>> 10)

/-- SHA-256 round constants (FIPS 180-4), written in decimal. -/
def shaK : List Nat :=
  [1116352408, 1899447441, 3049323471, 3921009573, 961987163,
   1508970993, 2453635748, 2870763221, 3624381080, 310598401,
   607225278, 1426881987, 1925078388, 2162078206, 2614888103,
   3248222580, 3835390401, 4022224774, 264347078, 604807628,
   770255983, 1249150122, 1555081692, 1996064986, 2554220882,
   2821834349, 2952996808, 3210313671, 3336571891, 3584528711,
   113926993, 338241895, 666307205, 773529912, 1294757372,
   1396182291, 1695183700, 1986661051, 2177026350, 2456956037,
   2730485921, 2820302411, 3259730800, 3345764771, 3516065817,
   3600352804, 4094571909, 275423344, 430227734, 506948616,
   659060556, 883997877, 958139571, 1322822218, 1537002063,
   1747873779, 1955562222, 2024104815, 2227730452, 2361852424,
   2428436474, 2756734187, 3204031479, 3329325298]

/-- SHA-256 initial hash value (FIPS 180-4), written in decimal. -/
def shaH0 : List Nat :=
  [1779033703, 3144134277, 1013904242, 2773480762,
   1359893119, 2600822924, 528734635, 1541459225]

/-- Groups a byte list into big-endian 32-bit words. -/
def bytesToWords : List Nat → List Nat
  | a :: b :: c :: d :: rest => (((a * 256 + b) * 256 + c) * 256 + d) :: bytesToWords rest
  | _ => []

/-- Extends a 16-word message schedule by the given number of words. -/
def extendW (ws : List Nat) : Nat → List Nat
  | 0 => ws
  | k + 1 =>
    let len := ws.length
    let nw := w32 (smallSigma1 (ws.getD (len - 2) 0) + ws.getD (len - 7) 0 +
                   smallSigma0 (ws.getD (len - 15) 0) + ws.getD (len - 16) 0)
    extendW (ws ++ [nw]) k

/-- One SHA-256 compression round on an eight-word working state. -/
def roundStep (st : List Nat) (kw : Nat × Nat) : List Nat :=
  match st with
  | [a, b, c, d, e, f, g, h] =>
    let t1 := w32 (h + bigSigma1 e + shaCh e f g + kw.1 + kw.2)
    let t2 := w32 (bigSigma0 a + shaMaj a b c)
    [w32 (t1 + t2), a, b, c, w32 (d + t1), e, f, g]
  | other => other

/-- SHA-256 compression of one 64-byte block into the running hash value. -/
def compressBlock (h : List Nat) (blockBytes : List Nat) : List Nat :=
  let w := extendW (bytesToWords blockBytes) 48
  let st := (shaK.zip w).foldl roundStep h
  (h.zip st).map (fun p => w32 (p.1 + p.2))

/-- Big-endian byte expansion of a natural number to the given width. -/
def toBEBytes : Nat → Nat → List Nat
  | 0, _ => []
  | k + 1, n => toBEBytes k (n / 256) ++ [n % 256]

/-- SHA-256 message padding. -/
def padBytes (msg : List Nat) : List Nat :=
  let len := msg.length
  let zeros := (120 - ((len + 1) % 64)) % 64
  msg ++ [128] ++ List.replicate zeros 0 ++ toBEBytes 8 (len * 8)

/-- Splits a byte list into blocks of 64 (fuel-based recursion). -/
def chunksAux : Nat → List Nat → List (List Nat)
  | 0, _ => []
  | _ + 1, [] => []
  | k + 1, l => l.take 64 :: chunksAux k (l.drop 64)

/-- Splits a byte list into blocks of 64. -/
def chunks64 (l : List Nat) : List (List Nat) := chunksAux l.length l

/-- SHA-256 of a byte list, as eight 32-bit words. -/
def sha256Words (msg : List Nat) : List Nat :=
  (chunks64 (padBytes msg)).foldl compressBlock shaH0

/-- Eight lower-case hexadecimal digits of a 32-bit word. -/
def wordToHex8 (n : Nat) : String :=
  String.mk ((List.range 8).map (fun i => hexDigitLower ((n >>> ((7 - i) * 4)) &&& 15)))

/-- Models crypto.createHash with algorithm sha256 followed by update and a
hexadecimal digest: the external crypto library used on lines 21 and 23. -/
def sha256hex (s : String) : String :=
  String.join ((sha256Words (utf8Bytes s)).map wordToHex8)

/-- Errors thrown by the JavaScript code: plain Error values created by the code
itself, and the TypeError and ReferenceError values raised by the runtime. -/
inductive JsError : Type
  | jsError (msg : String)
  | typeError (msg : String)
  | referenceError (msg : String)
deriving DecidableEq

/-- The public method name list (src/binance.js line 7). -/
def methodsPublic : List String :=
  ["ping", "time", "depth", "aggTrades", "klines", "ticker", "ticker/24hr"]

/-- The private method name list (src/binance.js line 8). -/
def methodsPrivate : List String :=
  ["order", "order/test", "account", "openOrders", "allOrders", "myTrades", "userDataStream"]

/-- Client configuration assembled in the BinanceClient constructor (line 74):
key and secret from the constructor arguments merged with the defaults and the
caller options.  The secret is optional; a missing secret is undefined. -/
structure ClientConfig where
  key : String
  secret : Option String
  url : String
  timeout : Nat
  otp : Option String
deriving DecidableEq

/-- JavaScript string coercion of a possibly undefined value in string
concatenation: undefined concatenates as the text undefined. -/
def jsStringOrUndefined : Option String → String
  | some s => s
  | none => "undefined"

/-- Models line 23 of signRequestData: the hexadecimal SHA-256 digest of the
percent-encoded data object, a vertical bar, and the api secret. -/
def signatureDigest (data : ParamMap) (api_secret : String) : String :=
  sha256hex (encodeURIComponentObj data ++ "|" ++ api_secret)

/-- Embeds signRequestData (src/binance.js lines 20 to 27).  After computing the
digest, line 24 evaluates date.now() where date is an undefined global, so the
function always throws a ReferenceError before attaching timestamp or signature. -/
def signRequestData (data : ParamMap) (api_secret : String) : Except JsError String :=
  let _hash_digest := signatureDigest data api_secret
  Except.error (JsError.referenceError "date is not defined")

/-- The HTTP request value handed to the got transport by rawRequest: the url,
the headers after the User-Agent is set, the HTTP method, the qs-stringified
body, the data object it was built from, and the timeout. -/
structure Request where
  url : String
  headers : HeaderMap
  method : String
  body : String
  data : ParamMap
  timeout : Nat
deriving DecidableEq

/-- Models the request-construction half of rawRequest (lines 30 to 41): the
User-Agent header is set and a POST request with a qs-stringified body is built. -/
def buildRawRequest (url : String) (headers : HeaderMap) (data : ParamMap)
    (timeout : Nat) : Request :=
  { url := url
    headers := setHeader headers "User-Agent" "Binance Javascript API Client"
    method := "POST"
    body := qsStringify data
    data := data
    timeout := timeout }

/-- A parsed JSON response body: an optional error list plus the remaining fields. -/
structure ApiResponse where
  error : Option (List String)
  payload : List (String × JsValue)
deriving DecidableEq

/-- Models the response-normalisation half of rawRequest (lines 42 to 56): when
the parsed body carries a non-empty error list, keep the entries starting with
the letter E, strip that first character, and throw the comma-joined message;
when nothing survives the filter, throw the generic unknown-error message. -/
def normalizeResponse (resp : ApiResponse) : Except JsError ApiResponse :=
  match resp.error with
  | none => Except.ok resp
  | some errs =>
    if errs.length == 0 then Except.ok resp
    else
      let filtered := (errs.filter (fun e => strStartsWith e "E")).map substrFrom1
      if filtered.length == 0 then
        Except.error (JsError.jsError "Binance API returned an unknown error")
      else
        Except.error (JsError.jsError (joinWithComma filtered))

/-- Models lines 150 to 156 of privateMethod: when the nonce property is falsy
or absent, it is set to the millisecond time multiplied by 1000 (the source
comment says spoof microsecond); when the config carries an otp it is copied
into the parameters. -/
def preparePrivateParams (cfg : ClientConfig) (now : Nat) (params : ParamMap) : ParamMap :=
  let params1 :=
    if jsTruthyOpt (lookupParam params "nonce") then params
    else setParam params "nonce" (JsValue.num (now * 1000))
  match cfg.otp with
  | some otp => setParam params1 "otp" (JsValue.str otp)
  | none => params1

/-- Embeds privateMethod (src/binance.js lines 138 to 180) up to the point where
control would reach the transport.  After the nonce and otp preparation, the
signed branch calls signRequestData (which always throws a ReferenceError) and
the unsigned branch percent-encodes the parameter object; in either surviving
path, line 164 then assigns to the constant url binding of line 148, which in
the strict-mode class body throws a TypeError.  No request is ever handed to
the transport, so the result is always an error. -/
def privateMethodBuild (cfg : ClientConfig) (now : Nat) (method : String)
    (params : ParamMap) (signed : Bool) : Except JsError Request :=
  let _path := "/api/v1/" ++ method
  let _url := cfg.url ++ _path
  let params1 := preparePrivateParams cfg now params
  if signed then
    match signRequestData params1 (jsStringOrUndefined cfg.secret) with
    | Except.error e => Except.error e
    | Except.ok _ => Except.error (JsError.typeError "Assignment to constant variable.")
  else
    let _params2 := encodeURIComponentObj params1
    Except.error (JsError.typeError "Assignment to constant variable.")

/-- Embeds publicMethod (src/binance.js lines 109 to 129) up to the transport
call: the request is built from the base url plus the fixed path plus the
method name, empty headers, and the caller parameters unchanged. -/
def publicMethodRequest (cfg : ClientConfig) (method : String) (params : ParamMap) : Request :=
  buildRawRequest (cfg.url ++ "/api/v1/" ++ method) [] params cfg.timeout

/-- Embeds api (src/binance.js lines 84 to 100): public names dispatch to
publicMethod, private names dispatch to privateMethod with the signed flag left
at its default false, and any other name throws the invalid-method Error. -/
def apiBuild (cfg : ClientConfig) (now : Nat) (method : String)
    (params : ParamMap) : Except JsError Request :=
  if methodsPublic.contains method then
    Except.ok (publicMethodRequest cfg method params)
  else if methodsPrivate.contains method then
    privateMethodBuild cfg now method params false
  else
    Except.error (JsError.jsError (method ++ " is not a valid API method."))

/-- The requests an api call hands to the transport: one when construction
succeeds, none when an error is thrown first. -/
def apiRequests (cfg : ClientConfig) (now : Nat) (method : String)
    (params : ParamMap) : List Request :=
  match apiBuild cfg now method params with
  | Except.ok r => [r]
  | Except.error _ => []

deriving instance DecidableEq for Except

/-- How a settled call is delivered to the caller: the recorded callback
invocations (error argument, result argument) and the returned promise value. -/
structure Delivery where
  callbackCalls : List (Option JsError × Option ApiResponse)
  returned : Except JsError ApiResponse
deriving DecidableEq

/-- Models lines 120 to 128 of publicMethod: the settled response promise is
returned to the caller, and when a callback was supplied it is additionally
invoked with (null, result) on success or (error, null) on failure. -/
def completePublic (settled : Except JsError ApiResponse) (hasCallback : Bool) : Delivery :=
  { callbackCalls :=
      if hasCallback then
        match settled with
        | Except.ok v => [(none, some v)]
        | Except.error e => [(some e, none)]
      else []
    returned := settled }

/-- Number of callback invocations that surface the given error. -/
def countErrorCallbacks (calls : List (Option JsError × Option ApiResponse))
    (e : JsError) : Nat :=
  calls.countP (fun c => decide (c.1 = some e))

/-- Number of distinct channels through which the given error reaches the
caller: callback invocations carrying it plus the returned promise when it is
rejected with it. -/
def errorSurfaceCount (d : Delivery) (e : JsError) : Nat :=
  countErrorCallbacks d.callbackCalls e +
    (match d.returned with
     | Except.error e2 => if e2 = e then 1 else 0
     | Except.ok _ => 0)

/-- Follows the words of the spec: the digest is a cryptographic hash function
applied to the encoded parameters, a vertical bar, and the secret. -/
def digestOfEncodedAndSecret (encoded secret : String) : String :=
  sha256hex (encoded ++ "|" ++ secret)

/-- A concrete configuration with a secret, for witnesses. -/
def exampleConfig : ClientConfig :=
  { key := "api-key", secret := some "s3cr3t", url := "https://binance.com",
    timeout := 5000, otp := none }

/-- A concrete configuration with no secret, for witnesses. -/
def exampleConfigNoSecret : ClientConfig :=
  { key := "api-key", secret := none, url := "https://binance.com",
    timeout := 5000, otp := none }

/-- Reading back the key just written returns the written value. -/
theorem lookupParam_setParam_self (ps : ParamMap) (k : String) (v : JsValue) :
    lookupParam (setParam ps k v) k = some v := by
  induction ps with
  | nil => simp [setParam, lookupParam]
  | cons p rest ih =>
    obtain ⟨k2, v2⟩ := p
    by_cases h : k2 = k
    · simp [setParam, lookupParam, h]
    · simp [setParam, lookupParam, h, ih]

/-- Writing one key leaves every other key unchanged. -/
theorem lookupParam_setParam_ne (ps : ParamMap) (k k2 : String) (v : JsValue)
    (h : k ≠ k2) : lookupParam (setParam ps k v) k2 = lookupParam ps k2 := by
  induction ps with
  | nil => simp [setParam, lookupParam, h]
  | cons p rest ih =>
    obtain ⟨k3, v3⟩ := p
    by_cases h3 : k3 = k
    · subst h3
      simp [setParam, lookupParam, h]
    · simp [setParam, lookupParam, h3, ih]

/-- Setting the otp property does not disturb the nonce property. -/
theorem lookupParam_set_otp_nonce (ps : ParamMap) (v : JsValue) :
    lookupParam (setParam ps "otp" v) "nonce" = lookupParam ps "nonce" :=
  lookupParam_setParam_ne ps "otp" "nonce" v (by decide)

/-- The public and private method lists are disjoint: a private name is not public. -/
theorem contains_private_not_public (m : String)
    (h : methodsPrivate.contains m = true) : methodsPublic.contains m = false := by
  have hm : m ∈ methodsPrivate := by simpa [methodsPrivate, List.contains] using h
  fin_cases hm <;> rfl

/-- A list all of whose elements fail the letter-E test filters to nothing. -/
theorem filter_startsWithE_eq_nil (l : List String)
    (h : ∀ e ∈ l, strStartsWith e "E" = false) :
    l.filter (fun e => strStartsWith e "E") = [] := by
  induction l with
  | nil => rfl
  | cons a as ih =>
    have ha := h a (List.mem_cons_self a as)
    simp [List.filter_cons, ha, ih (fun e he => h e (List.mem_cons_of_mem a he))]

/-- C1: the claim states that two signed calls with identical logical parameters
issued at different moments produce different signature values.  This is false:
at the concrete inputs below, which differ only in the nonce (that is, in the
moment of issue), the computed digests are identical, because the digest input
encodes the parameter object through object-to-string coercion, which is
constant. -/
theorem C1_counterexample :
    signatureDigest
        [("symbol", JsValue.str "BTCUSDT"), ("nonce", JsValue.num 1700000000000000)]
        "s3cr3t" =
      signatureDigest
        [("symbol", JsValue.str "BTCUSDT"), ("nonce", JsValue.num 1700000000001000)]
        "s3cr3t" := rfl

/-- C1 (amended): the digest computed by signRequestData is identical for any
two parameter maps, in particular for two calls with the same logical
parameters at different moments, and signRequestData then always throws a
ReferenceError before attaching a signature, so no signed request is ever
constructed and the secret never appears in one. -/
theorem C1_identical_digests :
    (∀ (d1 d2 : ParamMap) (s : String), signatureDigest d1 s = signatureDigest d2 s) ∧
      (∀ (d : ParamMap) (s : String),
        signRequestData d s = Except.error (JsError.referenceError "date is not defined")) :=
  ⟨fun _ _ _ => rfl, fun _ _ => rfl⟩

/-- C2 (counterexample): with no secret configured, the concrete private call
below does not fail with a MissingCredentials error: it fails with the
TypeError raised by assigning to the constant url binding. -/
theorem C2_counterexample :
    apiBuild exampleConfigNoSecret 0 "account" [] =
      Except.error (JsError.typeError "Assignment to constant variable.") := by decide

/-- C2 (amended): the code performs no credentials check; a private call with no
configured secret still fails before any network request, but with the
TypeError from reassigning the constant url binding, never with a
MissingCredentials error. -/
theorem C2_no_missing_credentials (cfg : ClientConfig) (now : Nat) (m : String)
    (params : ParamMap) (_hsec : cfg.secret = none)
    (hm : methodsPrivate.contains m = true) :
    apiBuild cfg now m params =
        Except.error (JsError.typeError "Assignment to constant variable.") ∧
      apiRequests cfg now m params = [] := by
  have hpub := contains_private_not_public m hm
  have hm2 : m ∈ methodsPrivate := by simpa using hm
  have hpub2 : m ∉ methodsPublic := by simpa using hpub
  constructor
  · simp [apiBuild, hpub2, hm2, privateMethodBuild]
  · simp [apiRequests, apiBuild, hpub2, hm2, privateMethodBuild]

/-- C2 witness: the amended theorem at a concrete private call with no secret. -/
theorem C2_no_missing_credentials_witness :
    apiBuild exampleConfigNoSecret 0 "order" [] =
        Except.error (JsError.typeError "Assignment to constant variable.") ∧
      apiRequests exampleConfigNoSecret 0 "order" [] = [] :=
  C2_no_missing_credentials exampleConfigNoSecret 0 "order" [] rfl (by decide)

/-- C3: a method name in neither the public nor the private list fails
immediately with the invalid-method Error, and zero requests reach the
transport. -/
theorem C3_invalid_method (cfg : ClientConfig) (now : Nat) (m : String)
    (params : ParamMap) (h1 : methodsPublic.contains m = false)
    (h2 : methodsPrivate.contains m = false) :
    apiBuild cfg now m params =
        Except.error (JsError.jsError (m ++ " is not a valid API method.")) ∧
      apiRequests cfg now m params = [] := by
  have h12 : m ∉ methodsPublic := by simpa using h1
  have h22 : m ∉ methodsPrivate := by simpa using h2
  constructor
  · simp [apiBuild, h12, h22]
  · simp [apiRequests, apiBuild, h12, h22]

/-- C3 witness: the theorem at the concrete unknown method name foo. -/
theorem C3_invalid_method_witness :
    apiBuild exampleConfig 0 "foo" [] =
        Except.error (JsError.jsError "foo is not a valid API method.") ∧
      apiRequests exampleConfig 0 "foo" [] = [] :=
  C3_invalid_method exampleConfig 0 "foo" [] (by decide) (by decide)

/-- C4 (counterexample): for the response whose error list holds E-1013 and
Einvalid quantity, the normalized message is not the claimed
1013, invalid quantity. -/
theorem C4_counterexample :
    normalizeResponse { error := some ["E-1013", "Einvalid quantity"], payload := [] } ≠
      Except.error (JsError.jsError "1013, invalid quantity") := by decide

/-- C4 (amended): the normalized message for that response is exactly
-1013, invalid quantity: the recognized prefix is the single letter E, so
stripping it from E-1013 leaves -1013. -/
theorem C4_normalized_message :
    normalizeResponse { error := some ["E-1013", "Einvalid quantity"], payload := [] } =
      Except.error (JsError.jsError "-1013, invalid quantity") := by decide

/-- C5: for every response whose error field is a non-empty list in which no
entry starts with the letter E, normalization raises the generic unknown-error
message rather than returning the response as a success. -/
theorem C5_unknown_error (errs : List String) (payload : List (String × JsValue))
    (hne : errs ≠ []) (hnone : ∀ e ∈ errs, strStartsWith e "E" = false) :
    normalizeResponse { error := some errs, payload := payload } =
      Except.error (JsError.jsError "Binance API returned an unknown error") := by
  have hfil := filter_startsWithE_eq_nil errs hnone
  cases errs with
  | nil => exact absurd rfl hne
  | cons a as => simp [normalizeResponse, hfil]

/-- C5 witness: the theorem at the concrete response whose only error entry is
warn-only. -/
theorem C5_unknown_error_witness :
    normalizeResponse { error := some ["warn-only"], payload := [] } =
      Except.error (JsError.jsError "Binance API returned an unknown error") :=
  C5_unknown_error ["warn-only"] [] (by decide) (by decide)

/-- C6 (counterexample): when a callback is supplied and the call fails, the
error is surfaced twice, once through the callback and once through the
returned rejected promise, contradicting exactly-once delivery. -/
theorem C6_counterexample :
    errorSurfaceCount (completePublic (Except.error (JsError.jsError "boom")) true)
      (JsError.jsError "boom") = 2 := by decide

/-- C6 (amended): a failing public call surfaces its error exactly once (via the
returned promise) when no callback is supplied, and twice (callback and
returned promise) when one is; the error is never swallowed. -/
theorem C6_error_surfaces (e : JsError) (hasCallback : Bool) :
    errorSurfaceCount (completePublic (Except.error e) hasCallback) e =
      (if hasCallback then 2 else 1) := by
  cases hasCallback <;>
    simp [errorSurfaceCount, completePublic, countErrorCallbacks]

/-- C7 (counterexample): the caller-supplied nonce 0 is not left unchanged: it
is falsy, so the preparation step overwrites it with the derived time value. -/
theorem C7_counterexample :
    lookupParam (preparePrivateParams exampleConfig 1 [("nonce", JsValue.num 0)]) "nonce" =
        some (JsValue.num 1000) ∧
      (some (JsValue.num 1000) : Option JsValue) ≠ some (JsValue.num 0) := by decide

/-- C7 (amended): when the parameter map has no nonce entry or a falsy one (the
number 0 or the empty string), the preparation step sets nonce to the current
millisecond time multiplied by 1000; a truthy caller-supplied nonce is left
unchanged. -/
theorem C7_nonce_behaviour (cfg : ClientConfig) (now : Nat) (params : ParamMap) :
    (jsTruthyOpt (lookupParam params "nonce") = false →
      lookupParam (preparePrivateParams cfg now params) "nonce" =
        some (JsValue.num (now * 1000))) ∧
    (jsTruthyOpt (lookupParam params "nonce") = true →
      lookupParam (preparePrivateParams cfg now params) "nonce" =
        lookupParam params "nonce") := by
  rcases hc : cfg.otp with _ | o <;> constructor <;> intro h <;>
    simp [preparePrivateParams, h, hc, lookupParam_set_otp_nonce,
      lookupParam_setParam_self]

/-- C7 witness: the amended theorem applied where the map has no nonce entry. -/
theorem C7_nonce_behaviour_witness :
    lookupParam (preparePrivateParams exampleConfig 3 []) "nonce" =
      some (JsValue.num 3000) :=
  (C7_nonce_behaviour exampleConfig 3 []).1 (by decide)

/-- C8: for every public method name, the constructed request has the User-Agent
header as its only header (in particular no API-key header), carries the caller
parameters unchanged (so no signature parameter is attached), and its url is
the base url plus the fixed path plus the method name. -/
theorem C8_public_request (cfg : ClientConfig) (now : Nat) (m : String)
    (params : ParamMap) (h : methodsPublic.contains m = true) :
    apiBuild cfg now m params = Except.ok
      { url := cfg.url ++ "/api/v1/" ++ m
        headers := [("User-Agent", "Binance Javascript API Client")]
        method := "POST"
        body := qsStringify params
        data := params
        timeout := cfg.timeout } := by
  have h2 : m ∈ methodsPublic := by simpa using h
  simp [apiBuild, h2, publicMethodRequest, buildRawRequest, setHeader]

/-- C8 witness: the ping scenario with empty parameters: path /api/v1/ping, only
the User-Agent header, and an empty body. -/
theorem C8_public_request_witness :
    apiBuild exampleConfig 0 "ping" [] = Except.ok
      { url := "https://binance.com/api/v1/ping"
        headers := [("User-Agent", "Binance Javascript API Client")]
        method := "POST"
        body := ""
        data := []
        timeout := 5000 } := by
  rw [C8_public_request exampleConfig 0 "ping" [] (by decide)]
  rfl

/-- C9: the signing digest is deterministic: it equals an independent
recomputation of the hash of the encoded parameter string, a vertical bar, and
the secret, and equal encoded strings with equal secrets give equal digests. -/
theorem C9_digest_deterministic :
    (∀ (data : ParamMap) (secret : String),
      signatureDigest data secret =
        digestOfEncodedAndSecret (encodeURIComponentObj data) secret) ∧
      (∀ (d1 d2 : ParamMap) (s1 s2 : String),
        encodeURIComponentObj d1 = encodeURIComponentObj d2 → s1 = s2 →
          signatureDigest d1 s1 = signatureDigest d2 s2) := by
  constructor
  · intro data secret
    rfl
  · intro d1 d2 s1 s2 _henc hs
    subst hs
    rfl

/-- C9 witness: the determinism theorem applied at concrete inputs. -/
theorem C9_digest_deterministic_witness :
    signatureDigest [("a", JsValue.num 1)] "s3cr3t" =
        digestOfEncodedAndSecret (encodeURIComponentObj [("a", JsValue.num 1)]) "s3cr3t" ∧
      signatureDigest [("a", JsValue.num 1)] "s3cr3t" =
        signatureDigest [("b", JsValue.num 2)] "s3cr3t" :=
  ⟨C9_digest_deterministic.1 [("a", JsValue.num 1)] "s3cr3t",
   C9_digest_deterministic.2 [("a", JsValue.num 1)] [("b", JsValue.num 2)]
     "s3cr3t" "s3cr3t" rfl rfl⟩

/-- C10: api dispatches private names to privateMethod with the signed flag left
at its default false, and for a private name no request at all reaches the
transport; moreover every request reachable from api carries the caller
parameters unchanged, so none gains a signature or timestamp parameter. -/
theorem C10_signed_branch_never_taken (cfg : ClientConfig) (now : Nat) (m : String)
    (params : ParamMap) (hsig : lookupParam params "signature" = none)
    (hts : lookupParam params "timestamp" = none) :
    (methodsPrivate.contains m = true →
      apiBuild cfg now m params = privateMethodBuild cfg now m params false ∧
        apiRequests cfg now m params = []) ∧
    (∀ r ∈ apiRequests cfg now m params,
      lookupParam r.data "signature" = none ∧ lookupParam r.data "timestamp" = none) := by
  by_cases hpub : m ∈ methodsPublic
  · constructor
    · intro hpriv
      have := contains_private_not_public m hpriv
      have hpub2 : m ∉ methodsPublic := by simpa using this
      exact absurd hpub hpub2
    · intro r hr
      simp [apiRequests, apiBuild, hpub, publicMethodRequest, buildRawRequest] at hr
      subst hr
      exact ⟨hsig, hts⟩
  · by_cases hpriv : m ∈ methodsPrivate
    · refine ⟨fun _ => ⟨?_, ?_⟩, fun r hr => ?_⟩
      · simp [apiBuild, hpub, hpriv]
      · simp [apiRequests, apiBuild, hpub, hpriv, privateMethodBuild]
      · simp [apiRequests, apiBuild, hpub, hpriv, privateMethodBuild] at hr
    · refine ⟨fun hc => ?_, fun r hr => ?_⟩
      · have hc2 : m ∈ methodsPrivate := by simpa using hc
        exact absurd hc2 hpriv
      · simp [apiRequests, apiBuild, hpub, hpriv] at hr

/-- C10 witness: the theorem at a concrete private call, fully discharged. -/
theorem C10_signed_branch_never_taken_witness :
    apiBuild exampleConfig 7 "myTrades" [] =
        privateMethodBuild exampleConfig 7 "myTrades" [] false ∧
      apiRequests exampleConfig 7 "myTrades" [] = [] :=
  (C10_signed_branch_never_taken exampleConfig 7 "myTrades" [] rfl rfl).1 (by decide)

end Binance
